import Mathlib

/-!
# Task-list client (`src/App.js`): state synchronisation with two on-chain task stores

A shallow embedding of the `App` component's core logic:

* the React state cells (`useState`) become the fields of `State`;
* every `async` handler becomes a function from the pre-state (and the answers the
  wallet / chain gives to its calls) to an `Outcome`: the post-state, the ordered log of
  calls that left the component, and whether the promise resolved or rejected;
* a rejected `await` (a thrown error) stops the handler at that point, keeping the state
  updates that were already issued.
-/

namespace TodoApp

/-! ## Data model -/

/-- A record returned by `todoWeb3.tasks(i)`; `filterTasks` only reads `completed`. -/
structure Task where
  id : Nat
  content : String
  completed : Bool
deriving DecidableEq, Repr

/-- A record of the list returned by the Simple contract's `getTasks()`. -/
structure SimpleTask where
  id : Nat
  description : String
  completed : Bool
deriving DecidableEq, Repr

/-- Why an awaited call rejected: a `TypeError` raised by dereferencing `null`, an
invalid-argument error thrown by the `ethers` library, or an error coming back from the
wallet / the chain. -/
inductive Failure where
  | typeError
  | invalidArgument
  | rpc (reason : String)
deriving DecidableEq, Repr

/-- The object a submitted transaction resolves to; `wait` is the answer of `tx.wait()`. -/
structure Transaction where
  wait : Except Failure Unit

/-- The answers of the wallet, of the two contracts and of the imported `ethers` library to
the calls of the component. The library is not part of the repository, so what
`new ethers.Contract(undefined, abi, runner)` does is a field here,
`contractWithoutAddress`: it throws (`.error`, as ethers v5 does) or returns a handle
(`.ok`). -/
structure Chain where
  contractWithoutAddress : Except Failure Unit
  getNetwork : Except Failure Nat
  getTasks : Except Failure (List SimpleTask)
  simpleAddTask : String → Except Failure Transaction
  completeTask : Nat → Except Failure Transaction
  taskCount : Except Failure Nat
  tasks : Nat → Except Failure Task
  createTask : String → Except Failure Transaction
  clearCompletedTasks : Except Failure Transaction

/-- Value of `new ethers.providers.Web3Provider(window.ethereum)`. -/
inductive Provider where
  | web3Provider
deriving DecidableEq, Repr

/-- What a contract handle is connected to: a signer (reads and writes) or the provider. -/
inductive Runner where
  | signer
  | provider
deriving DecidableEq, Repr

/-- Value of `new ethers.Contract(address, abi, runner)`; `address` is `none` when the
constructor was handed `undefined`. -/
structure Contract where
  address : Option String
  runner : Runner
deriving DecidableEq, Repr

/-- The constant `CONTRACT_ADDRESS` (line 15). -/
def CONTRACT_ADDRESS : String := "0xdd1E4C96faee94f34CA66A80D0c1A83879a8dE29"

/-- The `useState` cells of `App` (lines 19-31). -/
structure State where
  simpleTasks : List SimpleTask
  newSimpleTask : String
  simpleContract : Option Contract
  provider : Option Provider
  account : Option String
  todoWeb3 : Option Contract
  taskCount : Option Nat
  tasks : List Task
  activeFilter : String
  filteredTasks : List Task
  newTask : String
deriving DecidableEq, Repr

/-- The initial values given to `useState` (lines 19-31). -/
def initialState : State where
  simpleTasks := []
  newSimpleTask := ""
  simpleContract := none
  provider := none
  account := none
  todoWeb3 := none
  taskCount := none
  tasks := []
  activeFilter := "all"
  filteredTasks := []
  newTask := ""

/-- A call that leaves the component, in the order the handlers issue them. -/
inductive Event where
  | getSigner
  | getNetwork
  | alert (message : String)
  | getTasks
  | simpleAddTask (description : String)
  | completeTask (taskId : Nat)
  | wait
  | taskCount
  | tasks (i : Nat)
  | createTask (t : String)
  | clearCompletedTasks
deriving DecidableEq, Repr

/-- Result of running a handler: post-state, calls issued, and how the promise settled. -/
structure Outcome where
  state : State
  log : List Event
  result : Except Failure Unit

/-- The reads issued by the loaders `loadTasks` and `loadSimpleTasks`. -/
def Event.isLoaderCall : Event → Bool
  | .getTasks => true
  | .taskCount => true
  | .tasks _ => true
  | _ => false

/-- A call that submits a transaction to one of the contracts. -/
def Event.isSubmission : Event → Bool
  | .simpleAddTask _ => true
  | .completeTask _ => true
  | .createTask _ => true
  | .clearCompletedTasks => true
  | _ => false

/-! ## Task Loader -/

/-- Handler `loadSimpleTasks` (lines 68-71). -/
def loadSimpleTasks (env : Chain) (_contract : Contract) (s : State) : Outcome :=
  match env.getTasks with
  | .error e => ⟨s, [Event.getTasks], .error e⟩
  | .ok tasks => ⟨{ s with simpleTasks := tasks }, [Event.getTasks], .ok ()⟩

/-- The `for (var i = 1; i <= taskCount; i++)` loop of `loadTasks` (lines 96-99), entered at
`i` with the local array `tasks`; it returns the array, or the error of the first read that
rejects, together with the reads issued. -/
def loadTasksLoop (env : Chain) (taskCount : Nat) (i : Nat) (tasks : List Task)
    (log : List Event) : Except Failure (List Task) × List Event :=
  if i ≤ taskCount then
    match env.tasks i with
    | .error e => (.error e, log ++ [Event.tasks i])
    | .ok task => loadTasksLoop env taskCount (i + 1) (tasks ++ [task]) (log ++ [Event.tasks i])
  else (.ok tasks, log)
termination_by taskCount + 1 - i

/-- Handler `loadTasks` (lines 91-102): read the counter, store it, read `tasks(1..count)` in turn,
then store the array as both `tasks` and `filteredTasks`. -/
def loadTasks (env : Chain) (_todoWeb3 : Contract) (s : State) : Outcome :=
  match env.taskCount with
  | .error e => ⟨s, [Event.taskCount], .error e⟩
  | .ok taskCount =>
    let s1 := { s with taskCount := some taskCount }
    match loadTasksLoop env taskCount 1 [] [Event.taskCount] with
    | (.error e, log) => ⟨s1, log, .error e⟩
    | (.ok tasks, log) => ⟨{ s1 with tasks := tasks, filteredTasks := tasks }, log, .ok ()⟩

/-- Sequencing of two awaited steps: the second runs on the state left by the first, unless
the first rejected. -/
def Outcome.andThen (o : Outcome) (k : State → Outcome) : Outcome :=
  match o.result with
  | .error e => ⟨o.state, o.log, .error e⟩
  | .ok _ => ⟨(k o.state).state, o.log ++ (k o.state).log, (k o.state).result⟩

/-! ## Network Resolver and Contract Bindings -/

/-- The `TodoWeb3` member of an entry of `config.json`, in the format `{ address: string }`;
the member `address` may be absent, and `.address` is then `undefined`. -/
structure TodoWeb3Config where
  address : Option String
deriving DecidableEq, Repr

/-- An entry of `config.json` (imported on line 13, keyed by chain id); the member
`TodoWeb3` may be absent. -/
structure NetworkConfig where
  TodoWeb3 : Option TodoWeb3Config
deriving DecidableEq, Repr

/-- The text passed to `alert` on line 49. -/
def unsupportedNetworkMessage (chainId : Nat) : String :=
  "Unsupported network (" ++ toString chainId ++ "). Please connect to Sepolia."

/-- The constructor call `new ethers.Contract(address, abi, runner)`: for a given address
the handle is returned; for `undefined` the library either throws or returns a handle
without address, as `env.contractWithoutAddress` says. -/
def newContract (env : Chain) (address : Option String) (runner : Runner) :
    Except Failure Contract :=
  match address with
  | some a => .ok ⟨some a, runner⟩
  | none =>
    match env.contractWithoutAddress with
    | .error e => .error e
    | .ok _ => .ok ⟨none, runner⟩

/-- The `init` of the start-up effect (lines 35-63). `config` is the imported `config.json`
and `ethereum` tells whether `window.ethereum` is present. The check on line 48 looks at
the entry and at its member `TodoWeb3`, not at `TodoWeb3.address`. -/
def init (config : Nat → Option NetworkConfig) (ethereum : Bool) (env : Chain) (s : State) :
    Outcome :=
  if ethereum then
    let s1 := { s with provider := some Provider.web3Provider }
    match newContract env (some CONTRACT_ADDRESS) Runner.signer with
    | .error e => ⟨s1, [Event.getSigner], .error e⟩
    | .ok _simpleContract =>
      let s2 := { s1 with simpleContract := some _simpleContract }
      match env.getNetwork with
      | .error e => ⟨s2, [Event.getSigner, Event.getNetwork], .error e⟩
      | .ok chainId =>
        match config chainId with
        | none =>
          ⟨s2, [Event.getSigner, Event.getNetwork,
            Event.alert (unsupportedNetworkMessage chainId)], .ok ()⟩
        | some networkConfig =>
          match networkConfig.TodoWeb3 with
          | none =>
            ⟨s2, [Event.getSigner, Event.getNetwork,
              Event.alert (unsupportedNetworkMessage chainId)], .ok ()⟩
          | some todoWeb3Config =>
            match newContract env todoWeb3Config.address Runner.provider with
            | .error e => ⟨s2, [Event.getSigner, Event.getNetwork], .error e⟩
            | .ok _todoWeb3 =>
              let s3 := { s2 with todoWeb3 := some _todoWeb3 }
              ((Outcome.mk s3 [Event.getSigner, Event.getNetwork] (.ok ())).andThen
                (loadTasks env _todoWeb3)).andThen (loadSimpleTasks env _simpleContract)
  else ⟨s, [], .ok ()⟩

/-! ## Mutation Executor -/

/-- Handler `addSimpleTask` (lines 73-80). -/
def addSimpleTask (env : Chain) (s : State) : Outcome :=
  match s.simpleContract with
  | some simpleContract =>
    if s.newSimpleTask ≠ "" then
      match env.simpleAddTask s.newSimpleTask with
      | .error e => ⟨s, [Event.simpleAddTask s.newSimpleTask], .error e⟩
      | .ok tx =>
        match tx.wait with
        | .error e => ⟨s, [Event.simpleAddTask s.newSimpleTask, Event.wait], .error e⟩
        | .ok _ =>
          (Outcome.mk { s with newSimpleTask := "" }
            [Event.simpleAddTask s.newSimpleTask, Event.wait] (.ok ())).andThen
            (loadSimpleTasks env simpleContract)
    else ⟨s, [], .ok ()⟩
  | none => ⟨s, [], .ok ()⟩

/-- Handler `completeSimpleTask` (lines 82-88). -/
def completeSimpleTask (env : Chain) (taskId : Nat) (s : State) : Outcome :=
  match s.simpleContract with
  | some simpleContract =>
    match env.completeTask taskId with
    | .error e => ⟨s, [Event.completeTask taskId], .error e⟩
    | .ok tx =>
      match tx.wait with
      | .error e => ⟨s, [Event.completeTask taskId, Event.wait], .error e⟩
      | .ok _ =>
        (Outcome.mk s [Event.completeTask taskId, Event.wait] (.ok ())).andThen
          (loadSimpleTasks env simpleContract)
  | none => ⟨s, [], .ok ()⟩

/-- Handler `addTask` (lines 104-110). There is no guard: a `null` `provider` or `todoWeb3` makes the
member access throw a `TypeError` at the point where it is dereferenced. -/
def addTask (env : Chain) (t : String) (s : State) : Outcome :=
  match s.provider with
  | none => ⟨s, [], .error Failure.typeError⟩
  | some _ =>
    match s.todoWeb3 with
    | none => ⟨s, [Event.getSigner], .error Failure.typeError⟩
    | some todoWeb3 =>
      match env.createTask t with
      | .error e => ⟨s, [Event.getSigner, Event.createTask t], .error e⟩
      | .ok transaction =>
        match transaction.wait with
        | .error e => ⟨s, [Event.getSigner, Event.createTask t, Event.wait], .error e⟩
        | .ok _ =>
          (Outcome.mk { s with newTask := "" }
            [Event.getSigner, Event.createTask t, Event.wait] (.ok ())).andThen
            (loadTasks env todoWeb3)

/-- Lines 115-122 of `filterTasks`: the value of the local `filteredTasks` that is handed to
`setFilteredTasks`, for the task list `tasks` and the id `selectedFilter` of the clicked tab. -/
def filterTasksView (tasks : List Task) (selectedFilter : String) : List Task :=
  if selectedFilter ≠ "all" then
    let completed := if selectedFilter = "completed" then true else false
    tasks.filter (fun task => task.completed == completed)
  else tasks

/-- Handler `filterTasks` (lines 112-126), for a click on the tab with id `selectedFilter`. -/
def filterTasks (selectedFilter : String) (s : State) : State :=
  if selectedFilter ≠ s.activeFilter then
    { s with filteredTasks := filterTasksView s.tasks selectedFilter,
             activeFilter := selectedFilter }
  else s

/-- Handler `handleKeyDown` (lines 128-133), for the pressed `key` and the input's current `value`. -/
def handleKeyDown (env : Chain) (key : String) (value : String) (s : State) : Outcome :=
  if key = "Enter" then addTask env value s else ⟨s, [], .ok ()⟩

/-- Handler `clearCompleted` (lines 135-141). -/
def clearCompleted (env : Chain) (s : State) : Outcome :=
  match s.provider with
  | none => ⟨s, [], .error Failure.typeError⟩
  | some _ =>
    match s.todoWeb3 with
    | none => ⟨s, [Event.getSigner], .error Failure.typeError⟩
    | some todoWeb3 =>
      match env.clearCompletedTasks with
      | .error e => ⟨s, [Event.getSigner, Event.clearCompletedTasks], .error e⟩
      | .ok transaction =>
        match transaction.wait with
        | .error e => ⟨s, [Event.getSigner, Event.clearCompletedTasks, Event.wait], .error e⟩
        | .ok _ =>
          (Outcome.mk { s with newTask := "" }
            [Event.getSigner, Event.clearCompletedTasks, Event.wait] (.ok ())).andThen
            (loadTasks env todoWeb3)

/-! ## Concrete scenarios -/

/-- Three TodoWeb3 tasks: 1 and 3 completed, 2 pending. -/
def task1 : Task := ⟨1, "write report", true⟩

def task2 : Task := ⟨2, "buy milk", false⟩

def task3 : Task := ⟨3, "call bank", true⟩

/-- The task stored under id `i`: the three above, any further one pending. -/
def scenarioTask (i : Nat) : Task :=
  if i = 1 then task1 else if i = 2 then task2 else if i = 3 then task3 else ⟨i, "new", false⟩

/-- A transaction whose confirmation arrives. -/
def confirmedTx : Transaction := ⟨.ok ()⟩

/-- A transaction whose `wait()` rejects (reverted on chain). -/
def revertedTx : Transaction := ⟨.error (Failure.rpc "reverted")⟩

/-- A chain on which every call succeeds and TodoWeb3 holds `count` tasks; the library
throws on a contract without address. -/
def scenarioChain (count : Nat) : Chain where
  contractWithoutAddress := .error Failure.invalidArgument
  getNetwork := .ok 11155111
  getTasks := .ok []
  simpleAddTask := fun _ => .ok confirmedTx
  completeTask := fun _ => .ok confirmedTx
  taskCount := .ok count
  tasks := fun i => .ok (scenarioTask i)
  createTask := fun _ => .ok confirmedTx
  clearCompletedTasks := .ok confirmedTx

/-- A `config.json` with an entry for Sepolia only. -/
def sepoliaConfig (chainId : Nat) : Option NetworkConfig :=
  if chainId = 11155111 then
    some ⟨some ⟨some "0x5FbDB2315678afecb367f032d93F642f64180aa3"⟩⟩
  else none

/-- The binding `init` creates for `sepoliaConfig`. -/
def sepoliaTodoWeb3 : Contract :=
  ⟨some "0x5FbDB2315678afecb367f032d93F642f64180aa3", Runner.provider⟩

/-- A state after start-up: provider and both bindings present, nothing loaded yet. -/
def connectedState : State :=
  { initialState with
    provider := some Provider.web3Provider
    simpleContract := some ⟨some CONTRACT_ADDRESS, Runner.signer⟩
    todoWeb3 := some sepoliaTodoWeb3 }

/-- A chain on which the counter reads 2, `tasks(1)` is read and the read of `tasks(2)`
rejects. -/
def failingReadChain : Chain :=
  { scenarioChain 2 with
    tasks := fun i => if i = 1 then .ok task1 else .error (Failure.rpc "read failed") }

/-- A wallet connected to chain 999. -/
def unsupportedChain : Chain :=
  { scenarioChain 3 with getNetwork := .ok 999 }

/-- An empty `config.json`. -/
def emptyConfig (_chainId : Nat) : Option NetworkConfig := none

/-- A `config.json` whose Sepolia entry has the member `TodoWeb3` without an address:
`{ "11155111": { "TodoWeb3": {} } }`. -/
def addresslessConfig (chainId : Nat) : Option NetworkConfig :=
  if chainId = 11155111 then some ⟨some ⟨none⟩⟩ else none

/-- A `config.json` whose entry for chain 999 has no member `TodoWeb3`:
`{ "999": {} }`. -/
def memberlessConfig (chainId : Nat) : Option NetworkConfig :=
  if chainId = 999 then some ⟨none⟩ else none

/-- The chain `scenarioChain 3` with a library that returns a handle for a contract
without address. -/
def lenientChain : Chain :=
  { scenarioChain 3 with contractWithoutAddress := .ok () }

/-- A chain on which `createTask` is accepted by the wallet and then reverts. -/
def revertingChain : Chain :=
  { scenarioChain 3 with createTask := fun _ => .ok revertedTx }

/-- The state after start-up on Sepolia with three tasks on chain. -/
def startedState : State :=
  (init sepoliaConfig true (scenarioChain 3) initialState).state

/-- The state after then clicking the `pending` tab. -/
def pendingViewState : State := filterTasks "pending" startedState

/-- The state after then creating a fourth task (confirmed, hence reloaded). -/
def afterCreateState : State :=
  (addTask (scenarioChain 4) "new" pendingViewState).state

/-- The four mutations of the Mutation Executor, with their arguments. -/
inductive Mutation where
  | addSimpleTask
  | completeSimpleTask (taskId : Nat)
  | addTask (t : String)
  | clearCompleted
deriving DecidableEq, Repr

/-- Running a mutation: the handler of that name. -/
def Mutation.run (env : Chain) (s : State) : Mutation → Outcome
  | .addSimpleTask => TodoApp.addSimpleTask env s
  | .completeSimpleTask taskId => TodoApp.completeSimpleTask env taskId s
  | .addTask t => TodoApp.addTask env t s
  | .clearCompleted => TodoApp.clearCompleted env s

/-- The answer the chain gives to the transaction a mutation submits. -/
def Mutation.submission (env : Chain) (s : State) : Mutation → Except Failure Transaction
  | .addSimpleTask => env.simpleAddTask s.newSimpleTask
  | .completeSimpleTask taskId => env.completeTask taskId
  | .addTask t => env.createTask t
  | .clearCompleted => env.clearCompletedTasks

/-- The submission rejected, or it was accepted and the wait for its confirmation rejected. -/
def notConfirmed : Except Failure Transaction → Bool
  | .error _ => true
  | .ok tx =>
    match tx.wait with
    | .error _ => true
    | .ok _ => false

/-! ## The loop of `loadTasks` -/

theorem loadTasksLoop_unfold (env : Chain) (n i : Nat) (acc : List Task) (log : List Event) :
    loadTasksLoop env n i acc log =
      if i ≤ n then
        match env.tasks i with
        | .error e => (.error e, log ++ [Event.tasks i])
        | .ok task => loadTasksLoop env n (i + 1) (acc ++ [task]) (log ++ [Event.tasks i])
      else (.ok acc, log) := by
  rw [loadTasksLoop]

/-- When every read of `tasks(j)`, `i ≤ j ≤ n`, answers `t j`, the loop entered at `i` ends
and appends `t i, ..., t n` in that order. -/
theorem loadTasksLoop_ok (env : Chain) (t : Nat → Task) (n : Nat) :
    ∀ (k i : Nat) (acc : List Task) (log : List Event), k = n + 1 - i →
      (∀ j, i ≤ j → j ≤ n → env.tasks j = .ok (t j)) →
      loadTasksLoop env n i acc log =
        (.ok (acc ++ (List.range' i k).map t), log ++ (List.range' i k).map Event.tasks) := by
  intro k
  induction k with
  | zero =>
    intro i acc log hk _
    rw [loadTasksLoop_unfold, if_neg (by omega)]
    simp
  | succ k ih =>
    intro i acc log hk h
    rw [loadTasksLoop_unfold, if_pos (by omega), h i (le_refl i) (by omega)]
    simp only
    rw [ih (i + 1) _ _ (by omega) (fun j h1 h2 => h j (by omega) h2)]
    simp [List.range'_succ]

/-- When some read of `tasks(j)`, `i ≤ j ≤ n`, rejects, the loop entered at `i` rejects. -/
theorem loadTasksLoop_error (env : Chain) (n : Nat) :
    ∀ (k i : Nat) (acc : List Task) (log : List Event), k = n + 1 - i →
      (∃ j e, i ≤ j ∧ j ≤ n ∧ env.tasks j = .error e) →
      ∃ e, (loadTasksLoop env n i acc log).1 = .error e := by
  intro k
  induction k with
  | zero =>
    intro i acc log hk h
    obtain ⟨j, _, h1, h2, _⟩ := h
    omega
  | succ k ih =>
    intro i acc log hk h
    obtain ⟨j, e, h1, h2, h3⟩ := h
    rw [loadTasksLoop_unfold, if_pos (by omega)]
    cases hi : env.tasks i with
    | error e2 => exact ⟨e2, rfl⟩
    | ok task =>
      simp only
      have hne : j ≠ i := by
        intro hji
        rw [hji, hi] at h3
        cases h3
      exact ih (i + 1) _ _ (by omega) ⟨j, e, by omega, h2, h3⟩

/-- Closed form of `loadTasks` when the counter reads `n` and every `tasks(i)`, `1 ≤ i ≤ n`,
reads `t i`. -/
theorem loadTasks_of_reads (env : Chain) (todoWeb3 : Contract) (s : State) (n : Nat)
    (t : Nat → Task) (hcount : env.taskCount = .ok n)
    (hreads : ∀ i, 1 ≤ i → i ≤ n → env.tasks i = .ok (t i)) :
    loadTasks env todoWeb3 s =
      ⟨{ s with taskCount := some n, tasks := (List.range' 1 n).map t,
                filteredTasks := (List.range' 1 n).map t },
        Event.taskCount :: (List.range' 1 n).map Event.tasks, .ok ()⟩ := by
  unfold loadTasks
  rw [hcount]
  simp only
  rw [loadTasksLoop_ok env t n n 1 [] [Event.taskCount] (by omega) hreads]
  simp

/-- Closed form of `loadTasks` on `scenarioChain n`. -/
theorem loadTasks_scenarioChain (n : Nat) (todoWeb3 : Contract) (s : State) :
    loadTasks (scenarioChain n) todoWeb3 s =
      ⟨{ s with taskCount := some n, tasks := (List.range' 1 n).map scenarioTask,
                filteredTasks := (List.range' 1 n).map scenarioTask },
        Event.taskCount :: (List.range' 1 n).map Event.tasks, .ok ()⟩ :=
  loadTasks_of_reads (scenarioChain n) todoWeb3 s n scenarioTask rfl (fun _ _ _ => rfl)

/-- When the counter read rejects, `loadTasks` rejects having stored nothing. -/
theorem loadTasks_of_count_error (env : Chain) (todoWeb3 : Contract) (s : State) (e : Failure)
    (hcount : env.taskCount = .error e) :
    loadTasks env todoWeb3 s = ⟨s, [Event.taskCount], .error e⟩ := by
  unfold loadTasks
  rw [hcount]

/-- When the counter reads `n` and some read `tasks(j)`, `1 ≤ j ≤ n`, rejects, `loadTasks`
rejects having stored the counter only. -/
theorem loadTasks_of_failed_read (env : Chain) (todoWeb3 : Contract) (s : State) (n : Nat)
    (hcount : env.taskCount = .ok n)
    (hread : ∃ j e, 1 ≤ j ∧ j ≤ n ∧ env.tasks j = .error e) :
    ∃ e log, loadTasks env todoWeb3 s = ⟨{ s with taskCount := some n }, log, .error e⟩ := by
  obtain ⟨e, he⟩ := loadTasksLoop_error env n n 1 [] [Event.taskCount] (by omega) hread
  unfold loadTasks
  rw [hcount]
  simp only
  rcases hloop : loadTasksLoop env n 1 [] [Event.taskCount] with ⟨r, log⟩
  rw [hloop] at he
  simp only at he
  subst he
  exact ⟨e, log, rfl⟩

/-- A handler whose log has no loader call. -/
theorem no_loader_of_log_eq (log : List Event) (h : log.all (fun e => !e.isLoaderCall) = true) :
    ∀ e ∈ log, e.isLoaderCall = false := by
  intro e he
  have := List.all_eq_true.mp h e he
  simpa using this

/-! ## Task Loader: completeness and order -/

/-- C1: when the counter reads `n` and every read `tasks(i)`, `1 ≤ i ≤ n`, succeeds with
`t i`, `loadTasks` resolves and stores exactly `t 1, ..., t n` in ascending id order (length
`n`, position `k` holding `t (k+1)`), issuing the reads in that order; for `n = 0` the
stored list is empty and the call still resolves. -/
theorem loadTasks_stores_tasks_in_id_order (env : Chain) (todoWeb3 : Contract) (s : State)
    (n : Nat) (t : Nat → Task) (hcount : env.taskCount = .ok n)
    (hreads : ∀ i, 1 ≤ i → i ≤ n → env.tasks i = .ok (t i)) :
    (loadTasks env todoWeb3 s).result = .ok () ∧
    (loadTasks env todoWeb3 s).state.tasks = (List.range' 1 n).map t ∧
    (loadTasks env todoWeb3 s).state.tasks.length = n ∧
    (∀ k, k < n → (loadTasks env todoWeb3 s).state.tasks[k]? = some (t (k + 1))) ∧
    (n = 0 → (loadTasks env todoWeb3 s).state.tasks = []) ∧
    (loadTasks env todoWeb3 s).state.taskCount = some n ∧
    (loadTasks env todoWeb3 s).log = Event.taskCount :: (List.range' 1 n).map Event.tasks := by
  rw [loadTasks_of_reads env todoWeb3 s n t hcount hreads]
  refine ⟨rfl, rfl, by simp, ?_, ?_, rfl, rfl⟩
  · intro k hk
    simp [List.getElem?_map, List.getElem?_range' _ _ hk, Nat.add_comm]
  · intro h0
    subst h0
    rfl

/-- Witness of C1 on the three-task chain, and on the empty one. -/
theorem loadTasks_stores_tasks_in_id_order_witness :
    (loadTasks (scenarioChain 3) sepoliaTodoWeb3 connectedState).state.tasks
        = [task1, task2, task3] ∧
    (loadTasks (scenarioChain 0) sepoliaTodoWeb3 connectedState).state.tasks = [] ∧
    (loadTasks (scenarioChain 0) sepoliaTodoWeb3 connectedState).result = .ok () :=
  ⟨(loadTasks_stores_tasks_in_id_order (scenarioChain 3) sepoliaTodoWeb3 connectedState 3
      scenarioTask rfl (fun _ _ _ => rfl)).2.1,
   (loadTasks_stores_tasks_in_id_order (scenarioChain 0) sepoliaTodoWeb3 connectedState 0
      scenarioTask rfl (fun _ _ _ => rfl)).2.1,
   (loadTasks_stores_tasks_in_id_order (scenarioChain 0) sepoliaTodoWeb3 connectedState 0
      scenarioTask rfl (fun _ _ _ => rfl)).1⟩

/-! ## Filter View -/

/-- C2: the view computed by `filterTasks` is, for `all`, the task list itself; for
`pending` exactly the tasks with `completed = false`; for `completed` exactly those with
`completed = true`; in each case an order-preserving subsequence of the task list; it is
what `filterTasks` stores when the criterion changes; and on tasks 1, 2, 3 with 1 and 3
completed, `pending` gives `[task2]` and `completed` gives `[task1, task3]`. -/
theorem filterTasks_view_is_filtered_subsequence (tasks : List Task) (s : State)
    (selectedFilter : String) :
    filterTasksView tasks "all" = tasks ∧
    filterTasksView tasks "pending" = tasks.filter (fun task => task.completed = false) ∧
    filterTasksView tasks "completed" = tasks.filter (fun task => task.completed = true) ∧
    (∀ task, task ∈ filterTasksView tasks "pending" ↔ task ∈ tasks ∧ task.completed = false) ∧
    (∀ task, task ∈ filterTasksView tasks "completed" ↔
      task ∈ tasks ∧ task.completed = true) ∧
    List.Sublist (filterTasksView tasks "all") tasks ∧
    List.Sublist (filterTasksView tasks "pending") tasks ∧
    List.Sublist (filterTasksView tasks "completed") tasks ∧
    (filterTasks selectedFilter s).filteredTasks =
      (if selectedFilter ≠ s.activeFilter then filterTasksView s.tasks selectedFilter
       else s.filteredTasks) ∧
    filterTasksView [task1, task2, task3] "pending" = [task2] ∧
    filterTasksView [task1, task2, task3] "completed" = [task1, task3] := by
  have hp : filterTasksView tasks "pending"
      = tasks.filter (fun task => task.completed = false) := by
    simp [filterTasksView]
  have hc : filterTasksView tasks "completed"
      = tasks.filter (fun task => task.completed = true) := by
    simp [filterTasksView]
  have ha : filterTasksView tasks "all" = tasks := by
    simp [filterTasksView]
  refine ⟨ha, hp, hc, ?_, ?_, ?_, ?_, ?_, ?_, by decide, by decide⟩
  · intro task
    rw [hp]
    simp [List.mem_filter]
  · intro task
    rw [hc]
    simp [List.mem_filter]
  · rw [ha]
  · rw [hp]
    exact List.filter_sublist _
  · rw [hc]
    exact List.filter_sublist _
  · unfold filterTasks
    split <;> rfl

/-- C9: clicking the tab that is already active leaves the whole state as it is, hence
`activeFilter`, `filteredTasks` and `tasks` keep their values. -/
theorem filterTasks_same_criterion_noop (s : State) :
    filterTasks s.activeFilter s = s ∧
    (filterTasks s.activeFilter s).activeFilter = s.activeFilter ∧
    (filterTasks s.activeFilter s).filteredTasks = s.filteredTasks ∧
    (filterTasks s.activeFilter s).tasks = s.tasks := by
  have h : filterTasks s.activeFilter s = s := by
    simp [filterTasks]
  rw [h]
  exact ⟨rfl, rfl, rfl, rfl⟩

/-- C10: filtering an already filtered sequence with the same criterion gives the sequence
obtained by filtering once, for every task sequence and every tab id. -/
theorem filterTasksView_idempotent (tasks : List Task) (selectedFilter : String) :
    filterTasksView (filterTasksView tasks selectedFilter) selectedFilter
      = filterTasksView tasks selectedFilter := by
  unfold filterTasksView
  split
  · simp [List.filter_filter]
  · rfl

/-! ## Task Loader: failed reads -/

/-- C5, as stated, fails: on a chain whose counter reads 2 and whose read of `tasks(2)`
rejects, `loadTasks` rejects, yet the cached task count has changed from `none` to 2. -/
theorem loadTasks_failed_read_commits_count :
    failingReadChain.taskCount = .ok 2 ∧
    failingReadChain.tasks 2 = .error (Failure.rpc "read failed") ∧
    (loadTasks failingReadChain sepoliaTodoWeb3 connectedState).result
      = .error (Failure.rpc "read failed") ∧
    (loadTasks failingReadChain sepoliaTodoWeb3 connectedState).state.taskCount = some 2 ∧
    (loadTasks failingReadChain sepoliaTodoWeb3 connectedState).state.taskCount
      ≠ connectedState.taskCount := by
  have h : loadTasks failingReadChain sepoliaTodoWeb3 connectedState =
      ⟨{ connectedState with taskCount := some 2 },
        [Event.taskCount, Event.tasks 1, Event.tasks 2], .error (Failure.rpc "read failed")⟩ := by
    have hcount : failingReadChain.taskCount = .ok 2 := rfl
    have h1 : failingReadChain.tasks 1 = .ok task1 := rfl
    have h2 : failingReadChain.tasks 2 = .error (Failure.rpc "read failed") := rfl
    unfold loadTasks
    rw [hcount]
    simp only
    rw [loadTasksLoop_unfold, if_pos (by decide), h1]
    simp only
    rw [loadTasksLoop_unfold, if_pos (by decide), h2]
    rfl
  rw [h]
  exact ⟨rfl, rfl, rfl, rfl, by decide⟩

/-- C5, amended: when a read of `loadTasks` rejects (the counter, or `tasks(j)` for some
`1 ≤ j ≤ count`), `loadTasks` rejects and the cached task list and the derived view keep
their values; the whole state is kept when the counter read rejects, whereas after a
rejected `tasks(j)` the state differs from the old one exactly in `taskCount`, which holds
the counter just read. -/
theorem loadTasks_failed_read_keeps_lists (env : Chain) (todoWeb3 : Contract) (s : State)
    (hfail : (∃ e, env.taskCount = .error e) ∨
      (∃ n j e, env.taskCount = .ok n ∧ 1 ≤ j ∧ j ≤ n ∧ env.tasks j = .error e)) :
    (∃ e, (loadTasks env todoWeb3 s).result = .error e) ∧
    (loadTasks env todoWeb3 s).state.tasks = s.tasks ∧
    (loadTasks env todoWeb3 s).state.filteredTasks = s.filteredTasks ∧
    (∀ e, env.taskCount = .error e → (loadTasks env todoWeb3 s).state = s) ∧
    (∀ n, env.taskCount = .ok n →
      (loadTasks env todoWeb3 s).state = { s with taskCount := some n }) := by
  rcases hfail with ⟨e, he⟩ | ⟨n, j, e, hn, h1, h2, h3⟩
  · rw [loadTasks_of_count_error env todoWeb3 s e he]
    refine ⟨⟨e, rfl⟩, rfl, rfl, fun _ _ => rfl, ?_⟩
    intro n hn
    rw [he] at hn
    cases hn
  · obtain ⟨e2, log, h⟩ := loadTasks_of_failed_read env todoWeb3 s n hn ⟨j, e, h1, h2, h3⟩
    rw [h]
    refine ⟨⟨e2, rfl⟩, rfl, rfl, ?_, ?_⟩
    · intro e3 he3
      rw [hn] at he3
      cases he3
    · intro m hm
      rw [hn] at hm
      cases hm
      rfl

/-- Witness of the amended C5 on `failingReadChain`. -/
theorem loadTasks_failed_read_keeps_lists_witness :
    (loadTasks failingReadChain sepoliaTodoWeb3 startedState).state.tasks
        = startedState.tasks ∧
    (loadTasks failingReadChain sepoliaTodoWeb3 startedState).state.filteredTasks
        = startedState.filteredTasks :=
  ⟨(loadTasks_failed_read_keeps_lists failingReadChain sepoliaTodoWeb3 startedState
      (Or.inr ⟨2, 2, Failure.rpc "read failed", rfl, by decide, by decide, rfl⟩)).2.1,
   (loadTasks_failed_read_keeps_lists failingReadChain sepoliaTodoWeb3 startedState
      (Or.inr ⟨2, 2, Failure.rpc "read failed", rfl, by decide, by decide, rfl⟩)).2.2.1⟩

/-! ## Network Resolver -/

/-- C6, as stated, fails, in two ways. With chain id 999 and an empty configuration `init`
reports the unsupported network and stores no TodoWeb3 binding, yet the Simple binding is
stored. And with an entry that has the member `TodoWeb3` but no address in it, `init` does
not report an unsupported network at all: no alert is issued; when the library throws on
the missing address `init` rejects with that error, and when the library returns a handle
the TodoWeb3 binding is stored and both loaders run. -/
theorem init_unsupported_network_keeps_simple_binding :
    unsupportedChain.getNetwork = .ok 999 ∧
    emptyConfig 999 = none ∧
    initialState.simpleContract = none ∧
    (init emptyConfig true unsupportedChain initialState).state.simpleContract
      = some ⟨some CONTRACT_ADDRESS, Runner.signer⟩ ∧
    (init emptyConfig true unsupportedChain initialState).state.simpleContract ≠ none ∧
    (scenarioChain 3).getNetwork = .ok 11155111 ∧
    lenientChain.getNetwork = .ok 11155111 ∧
    addresslessConfig 11155111 = some ⟨some ⟨none⟩⟩ ∧
    (init addresslessConfig true (scenarioChain 3) initialState).log
      = [Event.getSigner, Event.getNetwork] ∧
    (init addresslessConfig true (scenarioChain 3) initialState).result
      = .error Failure.invalidArgument ∧
    (init addresslessConfig true lenientChain initialState).log
      = [Event.getSigner, Event.getNetwork, Event.taskCount, Event.tasks 1, Event.tasks 2,
         Event.tasks 3, Event.getTasks] ∧
    (init addresslessConfig true lenientChain initialState).result = .ok () ∧
    (init addresslessConfig true lenientChain initialState).state.todoWeb3
      = some ⟨none, Runner.provider⟩ ∧
    (init addresslessConfig true lenientChain initialState).state.tasks
      = [task1, task2, task3] := by
  have hlenient : init addresslessConfig true lenientChain initialState =
      ⟨{ initialState with
          provider := some Provider.web3Provider
          simpleContract := some ⟨some CONTRACT_ADDRESS, Runner.signer⟩
          todoWeb3 := some ⟨none, Runner.provider⟩
          taskCount := some 3
          tasks := [task1, task2, task3]
          filteredTasks := [task1, task2, task3] },
        [Event.getSigner, Event.getNetwork, Event.taskCount, Event.tasks 1, Event.tasks 2,
         Event.tasks 3, Event.getTasks], .ok ()⟩ := by
    have hnet : lenientChain.getNetwork = .ok 11155111 := rfl
    have hcfg : addresslessConfig 11155111 = some ⟨some ⟨none⟩⟩ := rfl
    have hlib : lenientChain.contractWithoutAddress = .ok () := rfl
    have hload : ∀ (c : Contract) (s : State), loadTasks lenientChain c s =
        ⟨{ s with taskCount := some 3, tasks := (List.range' 1 3).map scenarioTask,
                  filteredTasks := (List.range' 1 3).map scenarioTask },
          Event.taskCount :: (List.range' 1 3).map Event.tasks, .ok ()⟩ :=
      fun c s => loadTasks_of_reads lenientChain c s 3 scenarioTask rfl (fun _ _ _ => rfl)
    simp only [init, newContract, if_true, hnet, hcfg, hlib, Outcome.andThen, hload,
      loadSimpleTasks]
    rfl
  rw [hlenient]
  refine ⟨rfl, rfl, rfl, rfl, ?_, rfl, rfl, rfl, rfl, rfl, rfl, rfl, rfl, rfl⟩
  intro h
  cases h

/-- C6, amended: for a chain id with no entry in the configuration, or whose entry has no
`TodoWeb3` member, `init` alerts the unsupported network with that chain id and stops:
the TodoWeb3 binding, the task count, both task lists and the view are as before and no
loader call is issued; the provider and the Simple binding at `CONTRACT_ADDRESS` are
stored, as they are set before the network is looked up. Nothing is said of an entry that
has the member `TodoWeb3` without an address in it, which line 48 lets through. -/
theorem init_unsupported_network (config : Nat → Option NetworkConfig) (env : Chain)
    (s : State) (chainId : Nat) (hnet : env.getNetwork = .ok chainId)
    (hcfg : config chainId = none ∨ config chainId = some ⟨none⟩) :
    init config true env s =
      ⟨{ s with provider := some Provider.web3Provider,
                simpleContract := some ⟨some CONTRACT_ADDRESS, Runner.signer⟩ },
        [Event.getSigner, Event.getNetwork, Event.alert (unsupportedNetworkMessage chainId)],
        .ok ()⟩ ∧
    (init config true env s).state.todoWeb3 = s.todoWeb3 ∧
    (init config true env s).state.taskCount = s.taskCount ∧
    (init config true env s).state.tasks = s.tasks ∧
    (init config true env s).state.filteredTasks = s.filteredTasks ∧
    (init config true env s).state.simpleTasks = s.simpleTasks ∧
    (∀ e ∈ (init config true env s).log, e.isLoaderCall = false) := by
  have h : init config true env s =
      ⟨{ s with provider := some Provider.web3Provider,
                simpleContract := some ⟨some CONTRACT_ADDRESS, Runner.signer⟩ },
        [Event.getSigner, Event.getNetwork, Event.alert (unsupportedNetworkMessage chainId)],
        .ok ()⟩ := by
    rcases hcfg with hc | hc <;> simp only [init, newContract, hnet, hc, if_true]
  rw [h]
  exact ⟨rfl, rfl, rfl, rfl, rfl, rfl, no_loader_of_log_eq _ rfl⟩

/-- Witness of the amended C6: chain id 999 with an empty configuration, and with an entry
that has no member `TodoWeb3`. -/
theorem init_unsupported_network_witness :
    (init emptyConfig true unsupportedChain initialState).log
      = [Event.getSigner, Event.getNetwork,
         Event.alert "Unsupported network (999). Please connect to Sepolia."] ∧
    (init emptyConfig true unsupportedChain initialState).state.todoWeb3 = none ∧
    (init memberlessConfig true unsupportedChain initialState).log
      = [Event.getSigner, Event.getNetwork,
         Event.alert "Unsupported network (999). Please connect to Sepolia."] ∧
    (init memberlessConfig true unsupportedChain initialState).state.todoWeb3 = none :=
  ⟨congrArg Outcome.log
      (init_unsupported_network emptyConfig unsupportedChain initialState 999 rfl
        (Or.inl rfl)).1,
   (init_unsupported_network emptyConfig unsupportedChain initialState 999 rfl
      (Or.inl rfl)).2.1,
   congrArg Outcome.log
      (init_unsupported_network memberlessConfig unsupportedChain initialState 999 rfl
        (Or.inr rfl)).1,
   (init_unsupported_network memberlessConfig unsupportedChain initialState 999 rfl
      (Or.inr rfl)).2.1⟩

/-! ## Mutation Executor -/

/-- C4: for each of the four mutations, when the transaction's submission rejects, or the
wait for its confirmation rejects, the handler leaves the whole state (hence `simpleTasks`,
`taskCount`, `tasks`, `filteredTasks`) as it was and issues no loader call. -/
theorem failed_mutation_keeps_state (m : Mutation) (env : Chain) (s : State)
    (hfail : notConfirmed (m.submission env s) = true) :
    (m.run env s).state = s ∧
    (m.run env s).state.simpleTasks = s.simpleTasks ∧
    (m.run env s).state.taskCount = s.taskCount ∧
    (m.run env s).state.tasks = s.tasks ∧
    (m.run env s).state.filteredTasks = s.filteredTasks ∧
    (∀ e ∈ (m.run env s).log, e.isLoaderCall = false) := by
  have key : (m.run env s).state = s ∧ (m.run env s).log.all (fun e => !e.isLoaderCall) = true := by
    cases m with
    | addSimpleTask =>
      simp only [Mutation.run, Mutation.submission, notConfirmed] at *
      unfold addSimpleTask
      cases s.simpleContract with
      | none => exact ⟨rfl, rfl⟩
      | some c =>
        simp only
        split
        · cases hsub : env.simpleAddTask s.newSimpleTask with
          | error e => exact ⟨rfl, rfl⟩
          | ok tx =>
            rw [hsub] at hfail
            simp only
            cases hw : tx.wait with
            | error e => exact ⟨rfl, rfl⟩
            | ok u => simp [hw] at hfail
        · exact ⟨rfl, rfl⟩
    | completeSimpleTask taskId =>
      simp only [Mutation.run, Mutation.submission, notConfirmed] at *
      unfold completeSimpleTask
      cases s.simpleContract with
      | none => exact ⟨rfl, rfl⟩
      | some c =>
        simp only
        cases hsub : env.completeTask taskId with
        | error e => exact ⟨rfl, rfl⟩
        | ok tx =>
          rw [hsub] at hfail
          simp only
          cases hw : tx.wait with
          | error e => exact ⟨rfl, rfl⟩
          | ok u => simp [hw] at hfail
    | addTask t =>
      simp only [Mutation.run, Mutation.submission, notConfirmed] at *
      unfold addTask
      cases s.provider with
      | none => exact ⟨rfl, rfl⟩
      | some p =>
        cases s.todoWeb3 with
        | none => exact ⟨rfl, rfl⟩
        | some c =>
          simp only
          cases hsub : env.createTask t with
          | error e => exact ⟨rfl, rfl⟩
          | ok tx =>
            rw [hsub] at hfail
            simp only
            cases hw : tx.wait with
            | error e => exact ⟨rfl, rfl⟩
            | ok u => simp [hw] at hfail
    | clearCompleted =>
      simp only [Mutation.run, Mutation.submission, notConfirmed] at *
      unfold clearCompleted
      cases s.provider with
      | none => exact ⟨rfl, rfl⟩
      | some p =>
        cases s.todoWeb3 with
        | none => exact ⟨rfl, rfl⟩
        | some c =>
          simp only
          cases hsub : env.clearCompletedTasks with
          | error e => exact ⟨rfl, rfl⟩
          | ok tx =>
            rw [hsub] at hfail
            simp only
            cases hw : tx.wait with
            | error e => exact ⟨rfl, rfl⟩
            | ok u => simp [hw] at hfail
  obtain ⟨h1, h2⟩ := key
  refine ⟨h1, ?_, ?_, ?_, ?_, no_loader_of_log_eq _ h2⟩ <;> rw [h1]

/-- Witness of C4: `createTask` accepted by the wallet and reverted on chain. -/
theorem failed_mutation_keeps_state_witness :
    notConfirmed ((Mutation.addTask "new").submission revertingChain startedState) = true ∧
    ((Mutation.addTask "new").run revertingChain startedState).state = startedState :=
  ⟨rfl, (failed_mutation_keeps_state (Mutation.addTask "new") revertingChain startedState rfl).1⟩

/-- C7, as stated, fails: with an empty staged description `addSimpleTask` is not rejected
with any error; its promise resolves. -/
theorem addSimpleTask_empty_resolves :
    connectedState.newSimpleTask = "" ∧
    (addSimpleTask (scenarioChain 3) connectedState).result = .ok () ∧
    (∀ e, (addSimpleTask (scenarioChain 3) connectedState).result ≠ .error e) := by
  refine ⟨rfl, rfl, ?_⟩
  intro e h
  cases h

/-- C7, amended: with an empty staged description `addSimpleTask` does nothing and
resolves without an error: no call is issued at all (so no `addTask` reaches the Simple
contract and no reload runs) and the state, the cached Simple list included, is kept. -/
theorem addSimpleTask_empty_is_skipped (env : Chain) (s : State)
    (hempty : s.newSimpleTask = "") :
    addSimpleTask env s = ⟨s, [], .ok ()⟩ ∧
    (addSimpleTask env s).log = [] ∧
    (∀ e ∈ (addSimpleTask env s).log, e.isSubmission = false ∧ e.isLoaderCall = false) ∧
    (addSimpleTask env s).state.simpleTasks = s.simpleTasks := by
  have h : addSimpleTask env s = ⟨s, [], .ok ()⟩ := by
    unfold addSimpleTask
    cases s.simpleContract with
    | none => rfl
    | some c => simp [hempty]
  rw [h]
  refine ⟨rfl, rfl, ?_, rfl⟩
  intro e he
  cases he

/-- Witness of the amended C7 on a connected state with an empty input. -/
theorem addSimpleTask_empty_is_skipped_witness :
    connectedState.newSimpleTask = "" ∧
    (addSimpleTask (scenarioChain 3) connectedState).log = [] ∧
    (addSimpleTask (scenarioChain 3) connectedState).state.simpleTasks
      = connectedState.simpleTasks :=
  ⟨rfl, (addSimpleTask_empty_is_skipped (scenarioChain 3) connectedState rfl).2.1,
   (addSimpleTask_empty_is_skipped (scenarioChain 3) connectedState rfl).2.2.2⟩

/-- C8 at its failing inputs: pressing Enter on an empty input requests a signer and
submits `createTask("")`, which is then confirmed and reloaded; and with a provider but no
TodoWeb3 binding (the state left by a start-up on an unsupported network), `addTask` and
`clearCompleted` request a signer before they throw. -/
theorem addTask_submits_without_validation :
    (init emptyConfig true unsupportedChain initialState).state
      = { connectedState with todoWeb3 := none } ∧
    (handleKeyDown (scenarioChain 1) "Enter" "" connectedState).log
      = [Event.getSigner, Event.createTask "", Event.wait, Event.taskCount, Event.tasks 1] ∧
    (handleKeyDown (scenarioChain 1) "Enter" "" connectedState).result = .ok () ∧
    (addTask (scenarioChain 1) "new" { connectedState with todoWeb3 := none }).log
      = [Event.getSigner] ∧
    (addTask (scenarioChain 1) "new" { connectedState with todoWeb3 := none }).result
      = .error Failure.typeError ∧
    (clearCompleted (scenarioChain 1) { connectedState with todoWeb3 := none }).log
      = [Event.getSigner] ∧
    (clearCompleted (scenarioChain 1) { connectedState with todoWeb3 := none }).result
      = .error Failure.typeError := by
  have h : handleKeyDown (scenarioChain 1) "Enter" "" connectedState =
      ⟨{ connectedState with taskCount := some 1, tasks := [task1], filteredTasks := [task1] },
        [Event.getSigner, Event.createTask "", Event.wait, Event.taskCount, Event.tasks 1],
        .ok ()⟩ := by
    simp only [handleKeyDown, addTask, connectedState, if_true]
    have hsub : (scenarioChain 1).createTask "" = .ok confirmedTx := rfl
    have hwait : confirmedTx.wait = .ok () := rfl
    simp only [hsub, hwait, Outcome.andThen, loadTasks_scenarioChain]
    rfl
  rw [h]
  exact ⟨rfl, rfl, rfl, rfl, rfl, rfl, rfl⟩

/-! ## The view under an active filter -/

/-- C3 at its failing input: after start-up on three tasks and a click on `pending` the
view is the filtered list `[task2]`; after a confirmed `createTask` the reload stores all
four tasks as the view while the active criterion is still `pending`, so the view differs
from the task list filtered by the active criterion. -/
theorem reload_breaks_filtered_view :
    pendingViewState.activeFilter = "pending" ∧
    pendingViewState.filteredTasks = [task2] ∧
    pendingViewState.filteredTasks
      = filterTasksView pendingViewState.tasks pendingViewState.activeFilter ∧
    afterCreateState.activeFilter = "pending" ∧
    afterCreateState.tasks = [task1, task2, task3, scenarioTask 4] ∧
    afterCreateState.filteredTasks = [task1, task2, task3, scenarioTask 4] ∧
    filterTasksView afterCreateState.tasks afterCreateState.activeFilter
      = [task2, scenarioTask 4] ∧
    afterCreateState.filteredTasks
      ≠ filterTasksView afterCreateState.tasks afterCreateState.activeFilter := by
  have hstart : startedState =
      { initialState with
        provider := some Provider.web3Provider
        simpleContract := some ⟨some CONTRACT_ADDRESS, Runner.signer⟩
        todoWeb3 := some sepoliaTodoWeb3
        taskCount := some 3
        tasks := [task1, task2, task3]
        filteredTasks := [task1, task2, task3] } := by
    have hnet : (scenarioChain 3).getNetwork = .ok 11155111 := rfl
    have hcfg : sepoliaConfig 11155111
        = some ⟨some ⟨some "0x5FbDB2315678afecb367f032d93F642f64180aa3"⟩⟩ := rfl
    simp only [startedState, init, newContract, if_true, hnet, hcfg, Outcome.andThen,
      loadTasks_scenarioChain, loadSimpleTasks]
    rfl
  have hpending : pendingViewState =
      { startedState with filteredTasks := [task2], activeFilter := "pending" } := by
    rw [pendingViewState, hstart]
    decide
  have hafter : afterCreateState =
      { pendingViewState with
        taskCount := some 4
        tasks := [task1, task2, task3, scenarioTask 4]
        filteredTasks := [task1, task2, task3, scenarioTask 4] } := by
    have hsub : (scenarioChain 4).createTask "new" = .ok confirmedTx := rfl
    have hwait : confirmedTx.wait = .ok () := rfl
    rw [afterCreateState, hpending, hstart]
    simp only [addTask, hsub, hwait, Outcome.andThen, loadTasks_scenarioChain]
    rfl
  rw [hafter, hpending, hstart]
  refine ⟨rfl, rfl, by decide, rfl, rfl, rfl, by decide, by decide⟩

end TodoApp
